import Mathlib

/-!
Verification development for the AIgoTrade trading backend.

Shallow embedding of:
* `TradingService.buy_stock` / `TradingService.sell_stock`
  (backend/trading/services.py) over an explicit ledger state;
* `TwelveDataWebSocketService._update_database`, `on_open` and
  `_handle_reconnection` (backend/trading/websocket_service.py).

Python `Decimal` values are modelled as exact rationals (`ℚ`).  Addition,
subtraction and multiplication of `Decimal`s are exact, so the only place the
model has to account for rounding is the explicit
`.quantize(Decimal(0.01), ROUND_HALF_UP)` call on the recomputed average
cost, modelled by `quantize2` below.  (Python divides at 28 significant
digits before quantizing; the model divides exactly — the two agree at the
cent level except on ties beyond the 26th digit, which no claim exercises.)

Database rows (`Stock`, `Holding`, `Transaction`) become list entries;
Django ORM lookups (`filter(...).first()`, `get_or_create`) become
`List.find?` plus insert/replace/erase of the first matching row.

A schema fact that shapes the embedding: Django's `Model.__init__` raises
`TypeError` for a keyword argument that is not a model field.  The
`Transaction` model (models.py lines 176-210) has NO `gain_loss` field, so
`Transaction.objects.create(..., gain_loss=...)` in `sell_stock` raises on
every validated sell — after the cash and holding writes have already been
committed, because that create call sits outside the `with
transaction.atomic():` block.  Likewise `Stock` has no `last_updated` or
`instrument_type` column and `MarketData` no `timestamp` column, so in
`_update_database` the get-or-create CREATE path and the `MarketData`
append both raise `TypeError`; that function swallows every exception in
its own `try/except`, so a tick for an unknown symbol stores nothing and
no bar row is ever written.
-/

set_option maxRecDepth 4000

namespace AIgoTrade

/-- Python `str.upper()` on the ASCII symbols the service handles:
uppercase every character. -/
def upperStr (s : String) : String := String.mk (s.data.map Char.toUpper)

/-- Floor of a rational number, computed from numerator and denominator
(the denominator is positive, so Euclidean division is the floor). -/
def ratFloor (x : ℚ) : ℤ := x.num.ediv (x.den : ℤ)

/-- Python `ROUND_HALF_UP` to an integer: ties are rounded away from zero. -/
def roundHalfUp (x : ℚ) : ℤ :=
  if 0 ≤ x then ratFloor (x + 1/2) else - ratFloor (1/2 - x)

/-- `Decimal.quantize(Decimal(0.01), rounding=ROUND_HALF_UP)`:
round to two decimal places, ties away from zero. -/
def quantize2 (x : ℚ) : ℚ := (roundHalfUp (100 * x) : ℚ) / 100

/-! ## Ledger data model (backend/trading/models.py) -/

/-- A row of the `Stock` table: the fields `buy_stock`/`sell_stock` read.
`current_price` is the fallback price when no live quote is available. -/
structure Stock where
  symbol : String
  name : String
  is_active : Bool
  current_price : ℚ
  deriving Repr, DecidableEq

/-- A row of the `Holding` table for the user's default portfolio,
keyed by the stock's (canonical, uppercase) symbol. -/
structure Holding where
  symbol : String
  quantity : ℚ
  average_cost : ℚ
  total_cost : ℚ
  deriving Repr, DecidableEq

/-- A row of the immutable `Transaction` table, restricted to the fields
this code path writes with values that vary (models.py lines 176-210:
portfolio, stock, transaction_type, status, quantity, price, total_amount,
fees, transaction_date, notes — there is NO `gain_loss` field, which is
what makes every validated sell raise `TypeError`). -/
structure Transaction where
  symbol : String
  transaction_type : String
  quantity : ℚ
  price : ℚ
  total_amount : ℚ
  deriving Repr, DecidableEq

/-- The state a `TradingService` call reads and writes: the default
portfolio's cash balance, its holdings, the transaction table and the
stock table. -/
structure LedgerState where
  cash_balance : ℚ
  holdings : List Holding
  transactions : List Transaction
  stocks : List Stock
  deriving Repr, DecidableEq

/-- The exceptions `buy_stock`/`sell_stock` let escape: the `ValueError`s
they raise themselves, with the data interpolated into their messages
(required vs. available), and the `TypeError` Django raises when
`objects.create` is passed a keyword that is not a model field (the
offending keyword is carried). -/
inductive TradeError where
  | stockNotFound (symbol : String)
  | insufficientFunds (needed available : ℚ)
  | insufficientShares (available requested : ℚ)
  | typeError (keyword : String)
  deriving Repr, DecidableEq

/-- The success dictionary returned by `buy_stock` (sells never reach
their return statement — see `sell_stock`).  `symbol` echoes the caller's
spelling verbatim; `total_amount` is the buy's `total_cost`. -/
structure TradeResult where
  symbol : String
  quantity : ℚ
  price : ℚ
  total_amount : ℚ
  new_cash_balance : ℚ
  deriving Repr, DecidableEq

/-- `Stock.objects.filter(symbol=sym, is_active=True).first()`. -/
def findStockL (stocks : List Stock) (sym : String) : Option Stock :=
  stocks.find? (fun st => st.symbol == sym && st.is_active)

/-- `Holding.objects.filter(portfolio=default, stock=stock).first()`,
keyed by the stock's symbol. -/
def findHoldingL (holdings : List Holding) (sym : String) : Option Holding :=
  holdings.find? (fun h => h.symbol == sym)

/-- Holding lookup on a ledger state. -/
def findHolding (s : LedgerState) (sym : String) : Option Holding :=
  findHoldingL s.holdings sym

/-- Replace the first holding row with the given symbol (the ORM `save()`
of a fetched row). -/
def replaceHolding : List Holding → String → Holding → List Holding
  | [], _, h2 => [h2]
  | x :: xs, sym, h2 =>
      if x.symbol == sym then h2 :: xs else x :: replaceHolding xs sym h2

/-- Delete the first holding row with the given symbol (`holding.delete()`). -/
def removeHolding : List Holding → String → List Holding
  | [], _ => []
  | x :: xs, sym => if x.symbol == sym then xs else x :: removeHolding xs sym

/-- Price resolution in `buy_stock`/`sell_stock`: if the caller supplied a
price it is used (after exact `Decimal` conversion); otherwise the code asks
the live market service, which reads the same `Stock` row, and falls back to
`stock.current_price` — both branches yield the stock's current price. -/
def resolvePrice (price : Option ℚ) (stock : Stock) : ℚ :=
  price.getD stock.current_price

/-- `TradingService.buy_stock(symbol, quantity, price=None)`
(backend/trading/services.py lines 113-189), as a function from the ledger
state to the state at the point the call returns or the raised error.
Every raise happens before any mutation, so the error branches return the
input state unchanged (which is also what `transaction.atomic` guarantees). -/
def buy_stock (s : LedgerState) (symbol : String) (quantity : ℚ)
    (price : Option ℚ) : LedgerState × Except TradeError TradeResult :=
  match findStockL s.stocks (upperStr symbol) with
  | none => (s, .error (.stockNotFound symbol))
  | some stock =>
    let price := resolvePrice price stock
    let total_cost := price * quantity
    if total_cost > s.cash_balance then
      (s, .error (.insufficientFunds total_cost s.cash_balance))
    else
      let s1 : LedgerState := { s with cash_balance := s.cash_balance - total_cost }
      match findHoldingL s1.holdings stock.symbol with
      | none =>
        let h : Holding :=
          { symbol := stock.symbol, quantity := quantity,
            average_cost := price, total_cost := total_cost }
        let s2 : LedgerState := { s1 with holdings := s1.holdings ++ [h] }
        let t : Transaction :=
          { symbol := stock.symbol, transaction_type := "BUY",
            quantity := quantity, price := price,
            total_amount := total_cost }
        let s3 : LedgerState := { s2 with transactions := s2.transactions ++ [t] }
        (s3, .ok { symbol := symbol, quantity := quantity, price := price,
                   total_amount := total_cost,
                   new_cash_balance := s3.cash_balance })
      | some h =>
        let total_quantity := h.quantity + quantity
        let total_invested := h.average_cost * h.quantity + total_cost
        let new_average_cost := quantize2 (total_invested / total_quantity)
        let h2 : Holding :=
          { symbol := h.symbol, quantity := total_quantity,
            average_cost := new_average_cost, total_cost := total_invested }
        let s2 : LedgerState :=
          { s1 with holdings := replaceHolding s1.holdings stock.symbol h2 }
        let t : Transaction :=
          { symbol := stock.symbol, transaction_type := "BUY",
            quantity := quantity, price := price,
            total_amount := total_cost }
        let s3 : LedgerState := { s2 with transactions := s2.transactions ++ [t] }
        (s3, .ok { symbol := symbol, quantity := quantity, price := price,
                   total_amount := total_cost,
                   new_cash_balance := s3.cash_balance })

/-- `TradingService.sell_stock(symbol, quantity, price=None)`
(backend/trading/services.py lines 191-263).  The validation errors are
raised before any mutation.  On a validated sell the cash credit and the
holding update/delete are committed inside `transaction.atomic`; the
subsequent `Transaction.objects.create(..., gain_loss=gain_loss, ...)`
(line 237, outside the atomic block) then raises `TypeError`, because the
`Transaction` model has no `gain_loss` field.  So every validated sell
returns the mutated state together with that `TypeError`: no SELL row is
appended and the success dictionary is never built.  (`gain_loss` below is
computed, as in the source, but only ever flows into the failing create.) -/
def sell_stock (s : LedgerState) (symbol : String) (quantity : ℚ)
    (price : Option ℚ) : LedgerState × Except TradeError TradeResult :=
  match findStockL s.stocks (upperStr symbol) with
  | none => (s, .error (.stockNotFound symbol))
  | some stock =>
    match findHoldingL s.holdings stock.symbol with
    | none => (s, .error (.insufficientShares 0 quantity))
    | some h =>
      if h.quantity < quantity then
        (s, .error (.insufficientShares h.quantity quantity))
      else
        let price := resolvePrice price stock
        let total_proceeds := price * quantity
        let _cost_basis := h.average_cost * quantity
        let _gain_loss := total_proceeds - _cost_basis
        let s1 : LedgerState := { s with cash_balance := s.cash_balance + total_proceeds }
        let remaining_quantity := h.quantity - quantity
        let hReduced : Holding :=
          { symbol := h.symbol, quantity := remaining_quantity,
            average_cost := h.average_cost,
            total_cost := h.average_cost * remaining_quantity }
        let s2 : LedgerState :=
          if remaining_quantity > 0 then
            { s1 with holdings := replaceHolding s1.holdings stock.symbol hReduced }
          else
            { s1 with holdings := removeHolding s1.holdings stock.symbol }
        (s2, .error (.typeError "gain_loss"))

/-- Sum of `total_cost` over all of the portfolio's holdings. -/
def holdingsTotalCost (s : LedgerState) : ℚ :=
  (s.holdings.map Holding.total_cost).sum

/-- The quantity the ledger-conservation property is about:
cash balance plus the summed holding cost bases. -/
def ledgerSum (s : LedgerState) : ℚ := s.cash_balance + holdingsTotalCost s

/-- One buy request (arguments of a `buy_stock` call). -/
structure BuyOp where
  symbol : String
  quantity : ℚ
  price : Option ℚ
  deriving Repr, DecidableEq

/-- Run a sequence of `buy_stock` calls, threading the ledger state. -/
def runBuys (s : LedgerState) : List BuyOp → LedgerState
  | [] => s
  | op :: ops => runBuys (buy_stock s op.symbol op.quantity op.price).1 ops

/-- A sequence of buys in which no buy targets a symbol already held at the
time of the call (each successful buy creates a fresh `Holding` row). -/
inductive FreshBuys : LedgerState → List BuyOp → Prop
  | nil (s : LedgerState) : FreshBuys s []
  | cons (s : LedgerState) (op : BuyOp) (ops : List BuyOp)
      (hfresh : findHolding s (upperStr op.symbol) = none)
      (hrest : FreshBuys (buy_stock s op.symbol op.quantity op.price).1 ops) :
      FreshBuys s (op :: ops)

/-! ## Feed connection manager (backend/trading/websocket_service.py) -/

/-- The mutable fields of `TwelveDataWebSocketService` that the
reconnection and subscription logic touches. -/
structure WSState where
  connected : Bool
  reconnect_attempts : ℕ
  subscribed_symbols : List String
  deriving Repr, DecidableEq

/-- `self.max_reconnect_attempts = 5`. -/
def max_reconnect_attempts : ℕ := 5

/-- `self.reconnect_delay = 5` (seconds, the backoff base). -/
def reconnect_delay : ℕ := 5

/-- `self.default_symbols` — the fixed list subscribed on every open. -/
def default_symbols : List String :=
  ["AAPL", "MSFT", "GOOGL", "AMZN", "TSLA", "META", "NVDA", "BRK.A", "JPM", "JNJ"]

/-- `TwelveDataWebSocketService._handle_reconnection` (lines 319-329):
if fewer than `max_reconnect_attempts` attempts have been made, increment
the counter, wait `min(60, reconnect_delay * 2 ** (attempts - 1))` seconds
and reconnect; otherwise log "max attempts reached" and stop.  Returns the
state plus `some waitTime` when a reconnection is attempted, `none` when
the service gives up. -/
def handle_reconnection (s : WSState) : WSState × Option ℕ :=
  if s.reconnect_attempts < max_reconnect_attempts then
    let attempts := s.reconnect_attempts + 1
    let wait_time := min 60 (reconnect_delay * 2 ^ (attempts - 1))
    ({ s with reconnect_attempts := attempts }, some wait_time)
  else
    (s, none)

/-- `TwelveDataWebSocketService.on_open` (lines 58-66): set `connected`,
reset the attempt counter, and send a subscribe message for each symbol in
`default_symbols` (and only those — `subscribed_symbols` is not consulted).
Returns the state plus the list of symbols a subscribe request is sent for. -/
def on_open (s : WSState) : WSState × List String :=
  ({ s with connected := true, reconnect_attempts := 0 }, default_symbols)

/-! ## Snapshot store (`_update_database`, lines 240-274) -/

/-- The persisted columns of a `Stock` row that `_update_database` can
actually write (models.py lines 45-68): `current_price` and `volume`.
The model has NO `last_updated` and NO `instrument_type` column — the
assignment `stock.last_updated = timestamp` only sets a transient Python
attribute that `save()` never persists, so no tick timestamp is stored
anywhere on this code path. -/
structure StockRow where
  symbol : String
  name : String
  current_price : ℚ
  volume : ℤ
  deriving Repr, DecidableEq

/-- `Stock.objects.get_or_create(symbol=symbol, ...)` lookup part. -/
def findStockRow (rows : List StockRow) (sym : String) : Option StockRow :=
  rows.find? (fun r => r.symbol == sym)

/-- `TwelveDataWebSocketService._update_database(symbol, price, timestamp,
day_volume, instrument_type)`, whose whole body runs inside a
`try/except` that only logs.  For an unknown symbol the get-or-create
CREATE path passes the nonexistent keywords `last_updated` and
`instrument_type` to `Stock(...)`, which raises `TypeError`; the handler
swallows it and NOTHING is stored.  For an existing symbol,
`current_price` and `volume` are overwritten unconditionally (no
comparison against any stored timestamp; `last_updated` is a transient
attribute) and `save()` commits them; the subsequent
`MarketData.objects.create(..., timestamp=timestamp)` then raises
`TypeError` (no `timestamp` column), which is also swallowed, so no bar
row is ever appended — hence the result carries only the stock rows.
The `timestamp` and `instrument_type` arguments flow only into the
failing writes. -/
def update_database (stocks : List StockRow) (symbol : String) (price : ℚ)
    (timestamp : ℤ) (day_volume : ℤ) (instrument_type : String) :
    List StockRow :=
  let _ := timestamp
  let _ := instrument_type
  match findStockRow stocks symbol with
  | none => stocks
  | some _ =>
      stocks.map (fun r =>
        if r.symbol == symbol then
          { r with current_price := price, volume := day_volume }
        else r)

/-! ## Helper lemmas -/

/-- The persisted effect of a tick on an existing stock row: only
`current_price` and `volume` change. -/
def applyTick (r : StockRow) (price : ℚ) (day_volume : ℤ) : StockRow :=
  { r with current_price := price, volume := day_volume }

lemma findStockRow_map_applyTick (l : List StockRow) (sym : String) (p : ℚ)
    (v : ℤ) (r0 : StockRow) (hfind : findStockRow l sym = some r0) :
    findStockRow (l.map (fun r => if r.symbol == sym then applyTick r p v else r)) sym
      = some (applyTick r0 p v) := by
  induction l with
  | nil => simp [findStockRow] at hfind
  | cons x xs ih =>
    by_cases hb : (x.symbol == sym) = true
    · rw [findStockRow, List.find?_cons, hb] at hfind
      have hxr : x = r0 := by injection hfind
      subst hxr
      have hb2 : ((applyTick x p v).symbol == sym) = true := hb
      simp only [List.map_cons, if_pos hb]
      rw [findStockRow, List.find?_cons, hb2]
    · have hb2atch : (x.symbol == sym) = false := by
        cases hval : (x.symbol == sym) with
        | true => exact absurd hval hb
        | false => rfl
      rw [findStockRow, List.find?_cons, hb2atch] at hfind
      simp only [List.map_cons, if_neg hb]
      rw [findStockRow, List.find?_cons, hb2atch]
      exact ih hfind

lemma findHoldingL_replace (l : List Holding) (sym : String) (h2 : Holding)
    (hs : (h2.symbol == sym) = true) (h0 : Holding)
    (hfind : findHoldingL l sym = some h0) :
    findHoldingL (replaceHolding l sym h2) sym = some h2 := by
  induction l with
  | nil => simp [findHoldingL] at hfind
  | cons x xs ih =>
    by_cases hb : (x.symbol == sym) = true
    · rw [replaceHolding, if_pos hb]
      rw [findHoldingL, List.find?_cons, hs]
    · have hb2 : (x.symbol == sym) = false := by
        cases hval : (x.symbol == sym) with
        | true => exact absurd hval hb
        | false => rfl
      rw [findHoldingL, List.find?_cons, hb2] at hfind
      rw [replaceHolding, if_neg hb]
      rw [findHoldingL, List.find?_cons, hb2]
      exact ih hfind

lemma findHoldingL_remove (l : List Holding) (sym : String)
    (hu : l.Pairwise (fun a b => a.symbol ≠ b.symbol)) :
    findHoldingL (removeHolding l sym) sym = none := by
  induction l with
  | nil => rfl
  | cons x xs ih =>
    rw [List.pairwise_cons] at hu
    by_cases hb : (x.symbol == sym) = true
    · rw [removeHolding, if_pos hb]
      rw [findHoldingL, List.find?_eq_none]
      intro y hy
      have hxy : x.symbol ≠ y.symbol := hu.1 y hy
      have hx : x.symbol = sym := by simpa using hb
      simp only [beq_iff_eq]
      intro hcontra
      exact hxy (by rw [hx, hcontra])
    · have hb2 : (x.symbol == sym) = false := by
        cases hval : (x.symbol == sym) with
        | true => exact absurd hval hb
        | false => rfl
      rw [removeHolding, if_neg hb]
      rw [findHoldingL, List.find?_cons, hb2]
      exact ih hu.2

/-! ## Concrete scenario states -/

/-- An active AAPL row at price 150, as in the spec §8 scenario. -/
def appleStock : Stock :=
  { symbol := "AAPL", name := "Apple Inc", is_active := true, current_price := 150 }

/-- An active MSFT row at price 300. -/
def msftStock : Stock :=
  { symbol := "MSFT", name := "Microsoft", is_active := true, current_price := 300 }

/-- The spec §8 starting portfolio: cash 10000, no holdings. -/
def demoState : LedgerState :=
  { cash_balance := 10000, holdings := [], transactions := [],
    stocks := [appleStock, msftStock] }

/-- A portfolio with only 100 of cash, for the insufficient-funds path. -/
def poorState : LedgerState :=
  { cash_balance := 100, holdings := [], transactions := [],
    stocks := [appleStock] }

/-- A portfolio already holding 10 AAPL at average cost 150 (cost basis
1500), cash 8500 — the state after the first spec §8 buy. -/
def holdState : LedgerState :=
  { cash_balance := 8500,
    holdings := [{ symbol := "AAPL", quantity := 10, average_cost := 150,
                   total_cost := 1500 }],
    transactions := [], stocks := [appleStock] }

/-- Spec §8 scenario after `buy(AAPL, 10, 150)` then `buy(AAPL, 5, 160)`:
cash 7700, holding 15 AAPL at quantized average cost 153.33. -/
def scenarioState : LedgerState :=
  (buy_stock (buy_stock demoState "AAPL" 10 (some 150)).1 "AAPL" 5 (some 160)).1

/-- Buy 10 AAPL at 150 then sell all 10 at 160: the realized gain flows
into cash, so cash plus remaining cost bases exceeds the initial cash. -/
def sellGainState : LedgerState :=
  (sell_stock (buy_stock demoState "AAPL" 10 (some 150)).1 "AAPL" 10 (some 160)).1

/-- Buy 1 at 1 and 2 at 2: the recomputed average cost 5/3 is quantized to
1.67, so `average_cost * quantity = 5.01` while `total_cost = 5`. -/
def twoBuysState : LedgerState :=
  (buy_stock (buy_stock demoState "AAPL" 1 (some 1)).1 "AAPL" 2 (some 2)).1

/-- A third buy on the drifted holding: the new `total_cost` is recomputed
from the quantized average, so one extra cent appears in the ledger. -/
def driftState : LedgerState := (buy_stock twoBuysState "AAPL" 3 (some 1)).1

/-! ## Claim C1: snapshot timestamp monotonicity -/

/-- Claim C1 counterexample: with AAPL already stored at price 100 after
a tick at timestamp 10, a tick carrying the OLDER timestamp 5 still
changes the stored snapshot (price 100 → 90): there is no timestamp
comparison anywhere.  Moreover no stored last-update timestamp exists for
this path to keep non-decreasing — the tick timestamp is never persisted
(no such `Stock` column), and a tick for an unknown symbol stores nothing
at all because the create path raises a swallowed `TypeError`. -/
theorem snapshot_monotonicity_counterexample :
    (findStockRow
        (update_database
          (update_database
            [{ symbol := "AAPL", name := "Apple Inc", current_price := 80,
               volume := 300 }] "AAPL" 100 10 500 "stock")
          "AAPL" 90 5 400 "stock") "AAPL"
      = some { symbol := "AAPL", name := "Apple Inc", current_price := 90,
               volume := 400 }) ∧
    (90 : ℚ) ≠ 100 ∧
    update_database [] "IBM" 100 10 500 "stock" = [] := by
  refine ⟨?_, by norm_num, ?_⟩ <;> with_unfolding_all rfl

/-- Claim C1 amended: the store neither persists nor consults tick
timestamps.  For a symbol already stored, `_update_database` overwrites
`current_price` and `volume` with the candidate's values unconditionally —
in particular a tick whose timestamp is older than any earlier tick's
still changes the stored snapshot; for an unknown symbol the create path
raises a swallowed `TypeError` and nothing is stored. -/
theorem update_database_last_writer_wins (stocks : List StockRow)
    (symbol : String) (price : ℚ) (timestamp : ℤ) (day_volume : ℤ)
    (itype : String) :
    (∀ r0, findStockRow stocks symbol = some r0 →
      findStockRow (update_database stocks symbol price timestamp day_volume itype)
          symbol
        = some { r0 with current_price := price, volume := day_volume }) ∧
    (findStockRow stocks symbol = none →
      update_database stocks symbol price timestamp day_volume itype = stocks) := by
  constructor
  · intro r0 hfind
    unfold update_database
    rw [hfind]
    exact findStockRow_map_applyTick stocks symbol price day_volume r0 hfind
  · intro hfind
    unfold update_database
    rw [hfind]

/-- Claim C1 witness: both branches of the amended theorem at concrete
inputs — an existing MSFT row is overwritten in place, and a tick for the
unknown symbol IBM leaves the single-row table unchanged. -/
theorem update_database_last_writer_wins_witness :
    findStockRow
        (update_database
          [{ symbol := "MSFT", name := "Microsoft", current_price := 300,
             volume := 700 }] "MSFT" 310 99 800 "stock") "MSFT"
      = some { symbol := "MSFT", name := "Microsoft", current_price := 310,
               volume := 800 } ∧
    update_database
        [{ symbol := "MSFT", name := "Microsoft", current_price := 300,
           volume := 700 }] "IBM" 100 10 500 "stock"
      = [{ symbol := "MSFT", name := "Microsoft", current_price := 300,
           volume := 700 }] := by
  constructor
  · exact (update_database_last_writer_wins _ "MSFT" 310 99 800 "stock").1
      { symbol := "MSFT", name := "Microsoft", current_price := 300,
        volume := 700 } (by with_unfolding_all rfl)
  · exact (update_database_last_writer_wins _ "IBM" 100 10 500 "stock").2
      (by with_unfolding_all rfl)

/-! ## Claim C8: reconnection retries -/

/-- Claim C8 counterexample: once five attempts have been made,
`_handle_reconnection` does nothing — no sixth delay is computed and no
reconnect is attempted, so retries are bounded, not indefinite. -/
theorem reconnection_bounded_counterexample :
    handle_reconnection { connected := false, reconnect_attempts := 5,
                          subscribed_symbols := [] }
      = ({ connected := false, reconnect_attempts := 5,
           subscribed_symbols := [] }, none) := by
  decide

/-- Claim C8 amended: reconnection is retried only while fewer than
`max_reconnect_attempts = 5` attempts have been made; each retry waits
exactly `min 60 (5 * 2 ^ k)` seconds where `k` is the number of previous
attempts (no jitter); past the bound the handler gives up; and a
successful open resets the attempt counter to zero. -/
theorem reconnection_backoff_behavior (s : WSState) :
    (s.reconnect_attempts < max_reconnect_attempts →
      handle_reconnection s =
        ({ s with reconnect_attempts := s.reconnect_attempts + 1 },
         some (min 60 (reconnect_delay * 2 ^ s.reconnect_attempts)))) ∧
    (max_reconnect_attempts ≤ s.reconnect_attempts →
      handle_reconnection s = (s, none)) ∧
    (on_open s).1.reconnect_attempts = 0 := by
  refine ⟨fun hlt => ?_, fun hge => ?_, rfl⟩
  · rw [handle_reconnection, if_pos hlt]
    simp
  · rw [handle_reconnection, if_neg (not_lt.mpr hge)]

/-- Claim C8 witness: after two failed attempts the third retry waits
`min 60 (5 * 2 ^ 2) = 20` seconds; with seven recorded attempts the
handler does not retry. -/
theorem reconnection_backoff_behavior_witness :
    handle_reconnection { connected := false, reconnect_attempts := 2,
                          subscribed_symbols := [] }
        = ({ connected := false, reconnect_attempts := 3,
             subscribed_symbols := [] }, some 20) ∧
    handle_reconnection { connected := false, reconnect_attempts := 7,
                          subscribed_symbols := [] }
        = ({ connected := false, reconnect_attempts := 7,
             subscribed_symbols := [] }, none) := by
  have h1 := (reconnection_backoff_behavior
    { connected := false, reconnect_attempts := 2,
      subscribed_symbols := [] }).1 (by decide)
  have h2 := (reconnection_backoff_behavior
    { connected := false, reconnect_attempts := 7,
      subscribed_symbols := [] }).2.1 (by decide)
  exact ⟨by rw [h1]; decide, by rw [h2]⟩

/-! ## Claim C9: resubscription on open -/

/-- Claim C9 counterexample: with "IBM" in the subscription set before a
disconnect, `on_open` sends subscribe requests only for the fixed default
list, which does not contain "IBM" — previously subscribed non-default
symbols are not re-subscribed. -/
theorem resubscribe_counterexample :
    "IBM" ∈ (WSState.mk false 3 ["IBM"]).subscribed_symbols ∧
    "IBM" ∉ (on_open (WSState.mk false 3 ["IBM"])).2 := by
  decide

/-- Claim C9 amended: on a successful open the manager marks itself
connected, resets the backoff counter, and sends subscribe requests for
exactly the fixed `default_symbols` list; a previously subscribed symbol
outside that list receives no subscribe request. -/
theorem on_open_subscribes_defaults (s : WSState) :
    (on_open s).2 = default_symbols ∧
    (on_open s).1.connected = true ∧
    (on_open s).1.reconnect_attempts = 0 ∧
    (∀ sym, sym ∈ s.subscribed_symbols → sym ∉ default_symbols →
      sym ∉ (on_open s).2) := by
  exact ⟨rfl, rfl, rfl, fun sym _ hnot => hnot⟩

/-- Claim C9 witness: instantiated at a state that held an "IBM"
subscription before the reconnect. -/
theorem on_open_subscribes_defaults_witness :
    "IBM" ∉ (on_open (WSState.mk false 1 ["IBM"])).2 :=
  (on_open_subscribes_defaults (WSState.mk false 1 ["IBM"])).2.2.2 "IBM"
    (by decide) (by decide)

/-! ## Claim C2: insufficient funds leaves the ledger untouched -/

/-- Claim C2 (confirmed): whenever the resolved total cost of a buy
strictly exceeds the portfolio's cash balance, `buy_stock` raises the
insufficient-funds error — reporting required vs. available — and returns
with the cash balance, holdings and transaction history exactly as they
were: the check precedes every mutation. -/
theorem buy_insufficient_funds_no_mutation
    (s : LedgerState) (symbol : String) (quantity : ℚ) (price : Option ℚ)
    (st : Stock) (hst : findStockL s.stocks (upperStr symbol) = some st)
    (hover : resolvePrice price st * quantity > s.cash_balance) :
    buy_stock s symbol quantity price =
      (s, .error (.insufficientFunds (resolvePrice price st * quantity)
                    s.cash_balance)) := by
  unfold buy_stock
  rw [hst]
  dsimp only
  rw [if_pos hover]


/-- Claim C2 witness: buying one AAPL share at 150 with only 100 of cash
fails with the typed error and leaves the state identical. -/
theorem buy_insufficient_funds_no_mutation_witness :
    buy_stock poorState "AAPL" 1 (some 150) =
      (poorState, .error (.insufficientFunds 150 100)) := by
  have h := buy_insufficient_funds_no_mutation poorState "AAPL" 1 (some 150)
    appleStock rfl (by with_unfolding_all decide)
  rw [h]
  with_unfolding_all rfl

/-! ## Claim C3: weighted average cost on a repeat buy -/

/-- Claim C3 (confirmed): a successful buy of `q2` at price `p2` on a
portfolio already holding `q1 = h.quantity` shares at average cost
`p1 = h.average_cost` leaves the holding with quantity `q1 + q2` and
average cost `(q1*p1 + q2*p2) / (q1+q2)` quantized to the fixed
two-decimal precision with `ROUND_HALF_UP`. -/
theorem buy_weighted_average_cost
    (s : LedgerState) (symbol : String) (q2 p2 : ℚ) (st : Stock) (h : Holding)
    (hst : findStockL s.stocks (upperStr symbol) = some st)
    (hh : findHoldingL s.holdings st.symbol = some h)
    (_hq1 : 0 < h.quantity) (_hq2 : 0 < q2)
    (hcash : p2 * q2 ≤ s.cash_balance) :
    ∃ h2, findHolding (buy_stock s symbol q2 (some p2)).1 st.symbol = some h2 ∧
      h2.quantity = h.quantity + q2 ∧
      h2.average_cost
        = quantize2 ((h.quantity * h.average_cost + q2 * p2) / (h.quantity + q2)) := by
  have hh2 : List.find? (fun (x : Holding) => x.symbol == st.symbol) s.holdings
      = some h := hh
  have hb0 := List.find?_some hh2
  have hb : (h.symbol == st.symbol) = true := hb0
  unfold buy_stock
  rw [hst]
  dsimp only [resolvePrice, Option.getD]
  rw [if_neg (not_lt.mpr hcash)]
  rw [hh]
  dsimp only
  refine ⟨_, findHoldingL_replace s.holdings st.symbol _ hb h hh, rfl, ?_⟩
  show quantize2 ((h.average_cost * h.quantity + p2 * q2) / (h.quantity + q2)) = _
  congr 1
  ring

/-- Claim C3 witness: the spec §8 numbers — holding 10 at 150, buying 5
at 160 gives 15 shares at quantized average 153.33. -/
theorem buy_weighted_average_cost_witness :
    ∃ h2, findHolding (buy_stock holdState "AAPL" 5 (some 160)).1 "AAPL"
        = some h2 ∧
      h2.quantity = 15 ∧ h2.average_cost = 15333/100 := by
  obtain ⟨h2, hfind, hq, ha⟩ := buy_weighted_average_cost holdState "AAPL" 5 160
    appleStock
    { symbol := "AAPL", quantity := 10, average_cost := 150, total_cost := 1500 }
    rfl rfl (by norm_num) (by norm_num) (by norm_num [holdState])
  refine ⟨h2, hfind, ?_, ?_⟩
  · rw [hq]; norm_num
  · rw [ha]; with_unfolding_all rfl

/-! ## Claim C4: ledger conservation -/

/-- Claim C4 counterexample: `cash_balance + Σ holding.total_cost` is not
invariant across buy/sell sequences.  Buying 10 AAPL at 150 and selling
all 10 at 160 moves the sum from 10000 to 10100: the cash credit and the
holding deletion are committed inside the atomic block before the sell's
trailing `TypeError`, so the realized gain lands in cash while the full
cost basis leaves the holdings.  And the pure-buy sequence 1@1, 2@2, 3@1
moves the sum to 10000.01 (the third buy rebuilds `total_cost` from the
quantized average 1.67) with no sell involved at all. -/
theorem ledger_conservation_counterexample :
    ledgerSum demoState = 10000 ∧
    ledgerSum sellGainState = 10100 ∧ (10100 : ℚ) ≠ 10000 ∧
    ledgerSum driftState = 1000001/100 ∧ (1000001/100 : ℚ) ≠ 10000 := by
  refine ⟨?_, ?_, by norm_num, ?_, by norm_num⟩ <;> with_unfolding_all rfl

lemma ledgerSum_buy_fresh (s : LedgerState) (symbol : String) (q : ℚ)
    (p : Option ℚ) (hfresh : findHolding s (upperStr symbol) = none) :
    ledgerSum (buy_stock s symbol q p).1 = ledgerSum s := by
  unfold buy_stock
  cases hst : findStockL s.stocks (upperStr symbol) with
  | none => rfl
  | some st =>
    have hst2 : List.find?
        (fun (x : Stock) => x.symbol == upperStr symbol && x.is_active)
        s.stocks = some st := hst
    have hb0 := List.find?_some hst2
    have hb : (st.symbol == upperStr symbol && st.is_active) = true := hb0
    have hsym : st.symbol = upperStr symbol := by
      have hand := (Bool.and_eq_true _ _).mp hb
      exact beq_iff_eq.mp hand.1
    dsimp only
    by_cases hcond : resolvePrice p st * q > s.cash_balance
    · rw [if_pos hcond]
    · rw [if_neg hcond]
      have hfr : findHoldingL s.holdings st.symbol = none := by
        rw [hsym]; exact hfresh
      rw [hfr]
      dsimp only
      unfold ledgerSum holdingsTotalCost
      dsimp only
      rw [List.map_append, List.sum_append]
      dsimp only [List.map_cons, List.map_nil, List.sum_cons, List.sum_nil]
      ring

/-- Claim C4 amended: with no deposits, the conservation law holds for
sequences of buys that each create a new holding (no symbol bought is
already held at the time of the buy): after every prefix of such a
sequence, `cash_balance + Σ holding.total_cost` equals its initial value.
A sell's committed mutation moves the realized gain or loss into cash
(before the sell's own `TypeError` is raised) and a repeat buy adds the
quantization drift of the recomputed average, so the sum is not invariant
for general buy/sell sequences (see the counterexample). -/
theorem ledger_conservation_fresh_buys (s : LedgerState)
    (ops1 ops2 : List BuyOp) (h : FreshBuys s (ops1 ++ ops2)) :
    ledgerSum (runBuys s ops1) = ledgerSum s := by
  induction ops1 generalizing s with
  | nil => rfl
  | cons op t ih =>
    rw [List.cons_append] at h
    cases h with
    | cons _ _ _ hfresh hrest =>
      rw [runBuys, ih _ hrest]
      exact ledgerSum_buy_fresh s op.symbol op.quantity op.price hfresh

/-- Claim C4 witness: two first-time buys (10 AAPL at 150, 2 MSFT at 300)
conserve `cash + Σ total_cost`. -/
theorem ledger_conservation_fresh_buys_witness :
    ledgerSum (runBuys demoState
      [{ symbol := "AAPL", quantity := 10, price := some 150 },
       { symbol := "MSFT", quantity := 2, price := some 300 }])
      = ledgerSum demoState := by
  refine ledger_conservation_fresh_buys demoState _ [] ?_
  refine FreshBuys.cons _ _ _ (by with_unfolding_all rfl) ?_
  refine FreshBuys.cons _ _ _ (by with_unfolding_all rfl) ?_
  exact FreshBuys.nil _

/-! ## Claim C5: full liquidation versus partial sell -/

/-- Claim C5 counterexample: after buying 1 at 1 and 2 at 2 the holding is
3 shares, quantized average 1.67, `total_cost` 5.  Selling 1 share raises
`TypeError` (so the sell is not successful, as the claim supposes) after
committing a holding with `total_cost := average_cost * remaining = 3.34`,
which is not the proportional shrink `5 * (2/3) = 10/3` of the stored cost
basis — the code rebuilds `total_cost` from the quantized average rather
than scaling it. -/
theorem sell_proportionality_counterexample :
    findHolding twoBuysState "AAPL" =
      some { symbol := "AAPL", quantity := 3, average_cost := 167/100,
             total_cost := 5 } ∧
    (sell_stock twoBuysState "AAPL" 1 (some 2)).2
      = .error (.typeError "gain_loss") ∧
    findHolding (sell_stock twoBuysState "AAPL" 1 (some 2)).1 "AAPL" =
      some { symbol := "AAPL", quantity := 2, average_cost := 167/100,
             total_cost := 167/50 } ∧
    (167/50 : ℚ) ≠ 5 * ((3 - 1) / 3) := by
  refine ⟨?_, ?_, ?_, by norm_num⟩ <;> with_unfolding_all rfl

/-- Claim C5 amended: no sell ever completes successfully — every
validated sell raises `TypeError` (the `Transaction` model has no
`gain_loss` field) after its cash and holding writes have committed.  The
committed holding mutation behaves as follows: selling the holding's
entire quantity deletes the `Holding` row; selling a strictly smaller
quantity leaves `average_cost` unchanged, reduces `quantity` by the sold
amount, and sets `total_cost := average_cost * remaining_quantity` — a
proportional shrink only when the stored `total_cost` was
`average_cost * quantity` (as for a holding created by a single buy), not
in general after quantization drift. -/
theorem sell_liquidation_behavior
    (s : LedgerState) (symbol : String) (q : ℚ) (p : Option ℚ)
    (st : Stock) (h : Holding)
    (hst : findStockL s.stocks (upperStr symbol) = some st)
    (hh : findHoldingL s.holdings st.symbol = some h)
    (hu : s.holdings.Pairwise (fun a b => a.symbol ≠ b.symbol))
    (hq : q ≤ h.quantity) :
    (sell_stock s symbol q p).2 = .error (.typeError "gain_loss") ∧
    (q = h.quantity → findHolding (sell_stock s symbol q p).1 st.symbol = none) ∧
    (q < h.quantity → ∃ h2,
      findHolding (sell_stock s symbol q p).1 st.symbol = some h2 ∧
      h2.average_cost = h.average_cost ∧ h2.quantity = h.quantity - q ∧
      h2.total_cost = h.average_cost * (h.quantity - q)) := by
  have hh2 : List.find? (fun (x : Holding) => x.symbol == st.symbol) s.holdings
      = some h := hh
  have hb0 := List.find?_some hh2
  have hb : (h.symbol == st.symbol) = true := hb0
  unfold sell_stock
  rw [hst]
  dsimp only
  rw [hh]
  dsimp only
  rw [if_neg (not_lt.mpr hq)]
  dsimp only
  refine ⟨rfl, ?_, ?_⟩
  · intro heq
    have hrem : ¬ (h.quantity - q > 0) := by rw [heq]; simp
    rw [if_neg hrem]
    exact findHoldingL_remove s.holdings st.symbol hu
  · intro hlt
    have hrem : h.quantity - q > 0 := sub_pos.mpr hlt
    rw [if_pos hrem]
    exact ⟨_, findHoldingL_replace s.holdings st.symbol _ hb h hh, rfl, rfl, rfl⟩

/-- Claim C5 witness: from the 10-share AAPL holding, selling all 10
raises the `TypeError` with the `Holding` row deleted in the committed
state, while selling 4 leaves 6 shares at the unchanged average cost 150
with cost basis 900. -/
theorem sell_liquidation_behavior_witness :
    (sell_stock holdState "AAPL" 10 (some 160)).2
      = .error (.typeError "gain_loss") ∧
    findHolding (sell_stock holdState "AAPL" 10 (some 160)).1 "AAPL" = none ∧
    (∃ h2, findHolding (sell_stock holdState "AAPL" 4 (some 160)).1 "AAPL"
        = some h2 ∧
      h2.average_cost = 150 ∧ h2.quantity = 6 ∧ h2.total_cost = 900) := by
  refine ⟨?_, ?_, ?_⟩
  · exact (sell_liquidation_behavior holdState "AAPL" 10 (some 160) appleStock
      { symbol := "AAPL", quantity := 10, average_cost := 150, total_cost := 1500 }
      rfl rfl (by simp [holdState]) (by norm_num)).1
  · exact (sell_liquidation_behavior holdState "AAPL" 10 (some 160) appleStock
      { symbol := "AAPL", quantity := 10, average_cost := 150, total_cost := 1500 }
      rfl rfl (by simp [holdState]) (by norm_num)).2.1 rfl
  · obtain ⟨h2, hf, ha, hq, ht⟩ :=
      (sell_liquidation_behavior holdState "AAPL" 4 (some 160) appleStock
        { symbol := "AAPL", quantity := 10, average_cost := 150, total_cost := 1500 }
        rfl rfl (by simp [holdState]) (by norm_num)).2.2 (by norm_num)
    refine ⟨h2, hf, ?_, ?_, ?_⟩
    · rw [ha]
    · rw [hq]; norm_num
    · rw [ht]; norm_num

/-! ## Claim C6: non-positive buy quantities are accepted -/

/-- Claim C6 (code bug): `buy_stock` performs no `quantity > 0`
validation.  Evaluating the code at quantity `-10`, price 150 on a
portfolio with cash 10000 shows the order executes: the negative cost
`-1500` passes the funds check, cash is credited to 11500, a holding with
quantity `-10` is created, and a BUY transaction is appended — where the
spec requires rejection before any mutation with a typed validation
error. -/
theorem buy_nonpositive_quantity_accepted :
    (buy_stock demoState "AAPL" (-10) (some 150)).2 =
      .ok { symbol := "AAPL", quantity := -10, price := 150,
            total_amount := -1500, new_cash_balance := 11500 } ∧
    (buy_stock demoState "AAPL" (-10) (some 150)).1.cash_balance = 11500 ∧
    findHolding (buy_stock demoState "AAPL" (-10) (some 150)).1 "AAPL" =
      some { symbol := "AAPL", quantity := -10, average_cost := 150,
             total_cost := -1500 } ∧
    (buy_stock demoState "AAPL" (-10) (some 150)).1.transactions.length = 1 := by
  refine ⟨?_, ?_, ?_, ?_⟩ <;> with_unfolding_all rfl

/-! ## Claim C7: sell proceeds and realized gain -/

/-- Claim C7 counterexample: the spec §8 scenario sell (15 AAPL at 160
with claimed fees 0.99) credits the gross proceeds 2400.00, not the net
`15*160 - 0.99 = 2399.01` — `sell_stock` has no fees parameter and deducts
nothing — and no realized gain/loss is recorded anywhere: the call raises
`TypeError` on the nonexistent `gain_loss` field and the transaction table
is left exactly as it was (the two BUY rows). -/
theorem sell_fees_counterexample :
    (sell_stock scenarioState "AAPL" 15 (some 160)).1.cash_balance
        - scenarioState.cash_balance = 2400 ∧
    (2400 : ℚ) ≠ 15 * 160 - 99/100 ∧
    (sell_stock scenarioState "AAPL" 15 (some 160)).2
      = .error (.typeError "gain_loss") ∧
    (sell_stock scenarioState "AAPL" 15 (some 160)).1.transactions
      = scenarioState.transactions := by
  refine ⟨by with_unfolding_all rfl, by norm_num,
          by with_unfolding_all rfl, by with_unfolding_all rfl⟩

/-- Claim C7 amended: a validated sell of quantity `q` at price `p`
credits the cash balance by exactly the GROSS proceeds `p * q` — there is
no fees parameter, so no fee is ever deducted — and that credit commits;
but no realized gain/loss is recorded anywhere and no result is returned:
the SELL `Transaction` write passes the nonexistent `gain_loss` field, so
the call raises `TypeError`, appends no transaction row, and never builds
the success dictionary. -/
theorem sell_gross_proceeds_and_gain
    (s : LedgerState) (symbol : String) (q p : ℚ) (st : Stock) (h : Holding)
    (hst : findStockL s.stocks (upperStr symbol) = some st)
    (hh : findHoldingL s.holdings st.symbol = some h)
    (hq : q ≤ h.quantity) :
    (sell_stock s symbol q (some p)).1.cash_balance = s.cash_balance + p * q ∧
    (sell_stock s symbol q (some p)).1.transactions = s.transactions ∧
    (sell_stock s symbol q (some p)).2 = .error (.typeError "gain_loss") := by
  unfold sell_stock
  rw [hst]
  dsimp only
  rw [hh]
  dsimp only
  rw [if_neg (not_lt.mpr hq)]
  dsimp only [resolvePrice, Option.getD]
  by_cases hrem : h.quantity - q > 0
  · rw [if_pos hrem]
    exact ⟨rfl, rfl, rfl⟩
  · rw [if_neg hrem]
    exact ⟨rfl, rfl, rfl⟩

/-- Claim C7 witness: selling 4 of the 10-share AAPL holding at 160
credits 640 gross (cash 8500 → 9140), appends no transaction, and raises
the `TypeError`. -/
theorem sell_gross_proceeds_and_gain_witness :
    (sell_stock holdState "AAPL" 4 (some 160)).1.cash_balance = 9140 ∧
    (sell_stock holdState "AAPL" 4 (some 160)).1.transactions = [] ∧
    (sell_stock holdState "AAPL" 4 (some 160)).2
      = .error (.typeError "gain_loss") := by
  have h := sell_gross_proceeds_and_gain holdState "AAPL" 4 160 appleStock
    { symbol := "AAPL", quantity := 10, average_cost := 150, total_cost := 1500 }
    rfl rfl (by norm_num)
  refine ⟨?_, ?_, h.2.2⟩
  · rw [h.1]; norm_num [holdState]
  · rw [h.2.1]
    rfl

/-! ## Claim C10: symbol-case canonicalization -/

/-- Normalize the caller-spelling echoes out of a trade outcome: the
`symbol` field of a success dictionary and of a stock-not-found error
repeat the caller's spelling verbatim; every other field is kept. -/
def scrubResult : Except TradeError TradeResult → Except TradeError TradeResult
  | .ok r => .ok { r with symbol := "" }
  | .error (.stockNotFound _) => .error (.stockNotFound "")
  | .error e => .error e

/-- The symbol string a trade outcome echoes back to the caller. -/
def resultSymbol : Except TradeError TradeResult → String
  | .ok r => r.symbol
  | .error (.stockNotFound sym) => sym
  | .error _ => ""

/-- Claim C10 counterexample: buying with the lowercase spelling "aapl"
yields the same portfolio state as with "AAPL" but NOT the same result —
the returned dictionary echoes the caller's spelling in its `symbol`
field, so the two results differ. -/
theorem trade_case_result_counterexample :
    (buy_stock demoState "aapl" 1 (some 150)).1
      = (buy_stock demoState "AAPL" 1 (some 150)).1 ∧
    resultSymbol (buy_stock demoState "aapl" 1 (some 150)).2 = "aapl" ∧
    resultSymbol (buy_stock demoState "AAPL" 1 (some 150)).2 = "AAPL" ∧
    (buy_stock demoState "aapl" 1 (some 150)).2
      ≠ (buy_stock demoState "AAPL" 1 (some 150)).2 := by
  refine ⟨by with_unfolding_all rfl, by with_unfolding_all rfl,
          by with_unfolding_all rfl, fun heq => ?_⟩
  have hsym := congrArg resultSymbol heq
  have h1 : resultSymbol (buy_stock demoState "aapl" 1 (some 150)).2 = "aapl" := by
    with_unfolding_all rfl
  have h2 : resultSymbol (buy_stock demoState "AAPL" 1 (some 150)).2 = "AAPL" := by
    with_unfolding_all rfl
  rw [h1, h2] at hsym
  exact absurd hsym (by decide)

/-- Claim C10 amended: `buy_stock` and `sell_stock` canonicalize the
symbol to uppercase for the stock lookup and for every portfolio
mutation, so two spellings with the same uppercasing produce identical
resulting ledger states and identical outcomes apart from the echoed
`symbol` string (in a buy's success dictionary and in the stock-not-found
error message), which preserves the caller's spelling; a validated sell
raises the same `TypeError` for every spelling. -/
theorem trade_case_insensitive_state
    (s : LedgerState) (sym1 sym2 : String) (q : ℚ) (p : Option ℚ)
    (hcase : upperStr sym1 = upperStr sym2) :
    (buy_stock s sym1 q p).1 = (buy_stock s sym2 q p).1 ∧
    scrubResult (buy_stock s sym1 q p).2 = scrubResult (buy_stock s sym2 q p).2 ∧
    (sell_stock s sym1 q p).1 = (sell_stock s sym2 q p).1 ∧
    scrubResult (sell_stock s sym1 q p).2
      = scrubResult (sell_stock s sym2 q p).2 := by
  unfold buy_stock sell_stock
  rw [hcase]
  cases hst : findStockL s.stocks (upperStr sym2) with
  | none => exact ⟨rfl, rfl, rfl, rfl⟩
  | some st =>
    dsimp only
    refine ⟨?_, ?_, ?_, ?_⟩
    · by_cases hcond : resolvePrice p st * q > s.cash_balance
      · simp only [if_pos hcond]
      · simp only [if_neg hcond]
        cases hh : findHoldingL s.holdings st.symbol <;> simp only [hh]
    · by_cases hcond : resolvePrice p st * q > s.cash_balance
      · simp only [if_pos hcond]
      · simp only [if_neg hcond]
        cases hh : findHoldingL s.holdings st.symbol <;> simp only [hh] <;> rfl
    · cases hh : findHoldingL s.holdings st.symbol <;> rfl
    · cases hh : findHoldingL s.holdings st.symbol <;> rfl

/-- Claim C10 witness: "aapl" and "AAPL" give identical states and
identical scrubbed results for a buy and a sell on the demo portfolio. -/
theorem trade_case_insensitive_state_witness :
    (buy_stock demoState "aapl" 1 (some 150)).1
      = (buy_stock demoState "AAPL" 1 (some 150)).1 ∧
    scrubResult (buy_stock demoState "aapl" 1 (some 150)).2
      = scrubResult (buy_stock demoState "AAPL" 1 (some 150)).2 ∧
    (sell_stock demoState "aapl" 1 (some 150)).1
      = (sell_stock demoState "AAPL" 1 (some 150)).1 ∧
    scrubResult (sell_stock demoState "aapl" 1 (some 150)).2
      = scrubResult (sell_stock demoState "AAPL" 1 (some 150)).2 :=
  trade_case_insensitive_state demoState "aapl" "AAPL" 1 (some 150) (by decide)

end AIgoTrade
